import Mathlib

/-!
Shallow embedding of `homework_bot` (files `homework.py`, `exceptions.py`).

The program polls an HTTP API and forwards homework-status changes to a
Telegram chat.  External effects (the HTTP fetch and the Telegram send)
are modelled as oracle inputs (`FetchOutcome`, `SendOutcome`) supplied to
each cycle; JSON payloads are modelled by the `JValue` type.  Error-level
and debug-level log calls and the Notifier (`bot.send_message`) calls and
the final sleep are recorded as `Action`s; info-level log lines (pure
diagnostics that no property references) are not recorded.
-/

namespace HomeworkBot

/-- Model of a Python/JSON value as it occurs in the bot's API payloads:
`None`, integers, strings, lists and string-keyed dicts. -/
inductive JValue where
  | jnull : JValue
  | jint (n : Int) : JValue
  | jstr (s : String) : JValue
  | jlist (items : List JValue) : JValue
  | jdict (entries : List (String × JValue)) : JValue

/-- First-match lookup in a dict's entry list (Python dicts have unique
keys, so first-match agrees with dict lookup on faithful inputs). -/
def lookupEntry {α : Type} : List (String × α) → String → Option α
  | [], _ => none
  | (k, v) :: rest, key => if k = key then some v else lookupEntry rest key

/-- Python `d.get(key)` on a dict: `None` when the key is absent. -/
def pyGet (entries : List (String × JValue)) (key : String) : JValue :=
  match lookupEntry entries key with
  | some v => v
  | none => .jnull

/-- Python `d.get(key, default)` on a dict. -/
def pyGetD (v : JValue) (key : String) (default : JValue) : JValue :=
  match v with
  | .jdict entries =>
    match lookupEntry entries key with
    | some w => w
    | none => default
  | _ => default

mutual
/-- Python `repr` of a value (string escaping inside `repr` of a string is
not modelled; no property depends on it). -/
def pyRepr : JValue → String
  | .jnull => "None"
  | .jint n => toString n
  | .jstr s => "\x27" ++ s ++ "\x27"
  | .jlist items => "[" ++ pyReprList items ++ "]"
  | .jdict entries => "\x7b" ++ pyReprEntries entries ++ "\x7d"

/-- `repr` of list elements joined by ", ". -/
def pyReprList : List JValue → String
  | [] => ""
  | [x] => pyRepr x
  | x :: y :: rest => pyRepr x ++ ", " ++ pyReprList (y :: rest)

/-- `repr` of dict entries joined by ", ". -/
def pyReprEntries : List (String × JValue) → String
  | [] => ""
  | [(k, v)] => "\x27" ++ k ++ "\x27: " ++ pyRepr v
  | (k, v) :: e :: rest =>
    "\x27" ++ k ++ "\x27: " ++ pyRepr v ++ ", " ++ pyReprEntries (e :: rest)
end

/-- Python `str` of a value, as used by f-string interpolation. -/
def pyStr : JValue → String
  | .jnull => "None"
  | .jint n => toString n
  | .jstr s => s
  | .jlist items => "[" ++ pyReprList items ++ "]"
  | .jdict entries => "\x7b" ++ pyReprEntries entries ++ "\x7d"

/-- Python `type(v)` rendered as in an f-string. -/
def pyType : JValue → String
  | .jnull => "<class \x27NoneType\x27>"
  | .jint _ => "<class \x27int\x27>"
  | .jstr _ => "<class \x27str\x27>"
  | .jlist _ => "<class \x27list\x27>"
  | .jdict _ => "<class \x27dict\x27>"

/-- The exception kinds the bot raises (`exceptions.py` plus the built-in
`TypeError` raised by `check_response`), each carrying its message. -/
inductive BotError where
  | tokenMissing (msg : String) : BotError
  | apiRequest (msg : String) : BotError
  | responseFormat (msg : String) : BotError
  | statusUnknown (msg : String) : BotError
  | typeError (msg : String) : BotError
deriving DecidableEq

/-- Python `str(error)` for each exception: the stored message. -/
def errMsg : BotError → String
  | .tokenMissing m => m
  | .apiRequest m => m
  | .responseFormat m => m
  | .statusUnknown m => m
  | .typeError m => m

/-- `RETRY_PERIOD = 600`. -/
def RETRY_PERIOD : Nat := 600

/-- `ENDPOINT` constant. -/
def ENDPOINT : String := "https://practicum.yandex.ru/api/user_api/homework_statuses/"

/-- `HOMEWORK_VERDICTS`: the fixed, immutable status → verdict mapping. -/
def HOMEWORK_VERDICTS : List (String × String) :=
  [("approved", "Работа проверена: ревьюеру всё понравилось. Ура!"),
   ("reviewing", "Работа взята на проверку ревьюером."),
   ("rejected", "Работа проверена: у ревьюера есть замечания.")]

/-- Python `status in HOMEWORK_VERDICTS` followed by indexing: only string
values can equal a string key; returns the verdict when the status is a
key of the map. -/
def verdictOf : JValue → Option String
  | .jstr s => lookupEntry HOMEWORK_VERDICTS s
  | _ => none

/-- The three environment credentials; `none` models an unset variable,
`some ""` an empty one (both falsy under Python `not token`). -/
structure Credentials where
  practicum_token : Option String
  telegram_token : Option String
  telegram_chat_id : Option String

/-- Python truthiness test `not token` for an optional env string. -/
def tokenFalsy : Option String → Bool
  | none => true
  | some s => s = ""

/-- `required_tokens` in `check_tokens`: the fixed (name, value) tuple. -/
def required_tokens (c : Credentials) : List (String × Option String) :=
  [("PRACTICUM_TOKEN", c.practicum_token),
   ("TELEGRAM_TOKEN", c.telegram_token),
   ("TELEGRAM_CHAT_ID", c.telegram_chat_id)]

/-- The `missing` list accumulated by the loop in `check_tokens`: names of
all falsy credentials, in the tuple's order. -/
def missingTokens (c : Credentials) : List String :=
  (required_tokens c).foldr
    (fun p acc => if tokenFalsy p.2 then p.1 :: acc else acc) []

/-- `check_tokens()`: checks every credential, collects all missing names
and raises a single `TokenMissingError` naming them all; succeeds when
none are missing. -/
def check_tokens (c : Credentials) : Except BotError Unit :=
  let missing := missingTokens c
  if missing.isEmpty then
    .ok ()
  else
    .error (.tokenMissing
      ("Отсутствуют переменные: " ++ String.intercalate ", " missing))

/-- Observable effects of one poll cycle: Notifier calls
(`bot.send_message`), error/debug log lines, and the inter-cycle sleep. -/
inductive Action where
  | notify (text : String) : Action
  | logError (text : String) : Action
  | logDebug (text : String) : Action
  | sleep (seconds : Nat) : Action
deriving DecidableEq

/-- Outcome of the Telegram transport for one `bot.send_message` call:
either delivered, or an `ApiTelegramException`/`RequestException` with
the given text. -/
inductive SendOutcome where
  | delivered : SendOutcome
  | transportFail (errText : String) : SendOutcome

/-- `send_message(bot, message)`: invokes the transport (one Notifier
call either way); on success logs the delivery and returns `True`; a
transport failure is re-raised as `APIRequestError`. -/
def send_message (message : String) (out : SendOutcome) :
    List Action × Except BotError Bool :=
  match out with
  | .delivered =>
    ([.notify message, .logDebug ("Сообщение отправлено: " ++ message)],
     .ok true)
  | .transportFail e =>
    ([.notify message],
     .error (.apiRequest ("Ошибка отправки сообщения: " ++ e)))

/-- Outcome of the HTTP transport for one `requests.get` call: a JSON
body with status 200, a `RequestException` with the given text, or a
non-success HTTP status with its body text. -/
inductive FetchOutcome where
  | ok (body : JValue) : FetchOutcome
  | requestError (errText : String) : FetchOutcome
  | badStatus (code : Nat) (text : String) : FetchOutcome

/-- `get_api_answer(timestamp)`: a `RequestException` is re-raised as
`APIRequestError`; a non-OK status raises `APIRequestError` carrying the
status code and body; otherwise the parsed JSON is returned. -/
def get_api_answer (out : FetchOutcome) : Except BotError JValue :=
  match out with
  | .ok body => .ok body
  | .requestError e => .error (.apiRequest ("Ошибка запроса к API: " ++ e))
  | .badStatus code text =>
    .error (.apiRequest
      ("Ошибка ответа API: " ++ toString code ++ ", " ++ text))

/-- `check_response(response)`: requires a dict, the key `homeworks`, and
a list value there; returns the homeworks list.  (It does not look at
`current_date`.) -/
def check_response (response : JValue) : Except BotError (List JValue) :=
  match response with
  | .jdict entries =>
    match lookupEntry entries "homeworks" with
    | none => .error (.responseFormat "Отсутствует ключ \"homeworks\".")
    | some homeworks =>
      match homeworks with
      | .jlist items => .ok items
      | other =>
        .error (.typeError
          ("\"homeworks\" должен быть списком, получено " ++ pyType other))
  | other =>
    .error (.typeError
      ("Ожидался словарь в ответе API, получено " ++ pyType other))

/-- `parse_status(homework)`: `homework.get('homework_name')` must not be
`None`, `homework.get('status')` must be a key of `HOMEWORK_VERDICTS`;
returns the formatted message.  A non-dict homework raises Python's
`AttributeError` (has no attribute `get`), modelled as a `typeError`. -/
def parse_status (homework : JValue) : Except BotError String :=
  match homework with
  | .jdict entries =>
    match pyGet entries "homework_name" with
    | .jnull => .error (.responseFormat "В ответе нет названия домашней работы.")
    | homework_name =>
      let status := pyGet entries "status"
      match verdictOf status with
      | none => .error (.statusUnknown ("Неизвестный статус: " ++ pyStr status))
      | some verdict =>
        .ok ("Изменился статус проверки работы \"" ++ pyStr homework_name
             ++ "\". " ++ verdict)
  | other =>
    .error (.typeError
      (pyType other ++ " object has no attribute \x27get\x27"))

/-- The loop-local state of `main`: the poll cursor `timestamp` (a
`JValue` because the code assigns it from the untyped `current_date`
field) and `last_message`, the last error text sent (or `''`). -/
structure LoopState where
  timestamp : JValue
  last_message : String

/-- Oracle inputs consumed by one iteration of `main`'s `while` loop: the
HTTP outcome and the transport outcomes for the (at most one) record send
and the (at most one) error-alert send. -/
structure CycleInput where
  fetch : FetchOutcome
  recordSend : SendOutcome
  alertSend : SendOutcome

/-- The `try:` block of one iteration of `main`'s loop: fetch, validate,
process `homeworks[0]` if any, update `timestamp`/`last_message` on
success.  Returns the state, the actions emitted so far, and the raised
exception if any. -/
def tryBody (st : LoopState) (inp : CycleInput) :
    LoopState × List Action × Option BotError :=
  match get_api_answer inp.fetch with
  | .error e => (st, [], some e)
  | .ok response =>
    match check_response response with
    | .error e => (st, [], some e)
    | .ok homeworks =>
      match homeworks with
      | [] => (st, [.logDebug "Новых статусов нет."], none)
      | homework :: _ =>
        match parse_status homework with
        | .error e => (st, [], some e)
        | .ok message =>
          let (sendActs, sendRes) := send_message message inp.recordSend
          match sendRes with
          | .error e => (st, sendActs, some e)
          | .ok _ =>
            ({ timestamp := pyGetD response "current_date" st.timestamp,
               last_message := "" }, sendActs, none)

/-- The alert text built in the `except` handler for a raised error. -/
def alertText (e : BotError) : String :=
  "Сбой в работе программы: " ++ errMsg e

/-- One full iteration of `main`'s `while True` loop: the `try:` body,
the `except Exception` handler with its deduplicated alert send (whose
own failure is caught and logged), and the `finally:` sleep. -/
def runCycle (st : LoopState) (inp : CycleInput) : LoopState × List Action :=
  match tryBody st inp with
  | (st1, acts, none) => (st1, acts ++ [.sleep RETRY_PERIOD])
  | (st1, acts, some error) =>
    let message := alertText error
    let acts := acts ++ [.logError message]
    if message ≠ st1.last_message then
      let (sendActs, sendRes) := send_message message inp.alertSend
      let acts := acts ++ sendActs ++
        (match sendRes with
         | .error send_err =>
           [.logError ("Ошибка при отправке в Telegram: " ++ errMsg send_err)]
         | .ok _ => [])
      ({ st1 with last_message := message }, acts ++ [.sleep RETRY_PERIOD])
    else
      (st1, acts ++ [.sleep RETRY_PERIOD])

/-- Runs the loop over a finite prefix of cycle inputs, concatenating the
emitted actions. -/
def runLoop (st : LoopState) : List CycleInput → LoopState × List Action
  | [] => (st, [])
  | inp :: rest =>
    let (st1, acts) := runCycle st inp
    let (st2, acts2) := runLoop st1 rest
    (st2, acts ++ acts2)

/-- Number of Notifier calls (`bot.send_message` invocations) in a list
of actions. -/
def notifyCount (acts : List Action) : Nat :=
  (acts.filter fun a =>
    match a with
    | .notify _ => true
    | _ => false).length

/-- Number of sleeps in a list of actions. -/
def sleepCount (acts : List Action) : Nat :=
  (acts.filter fun a =>
    match a with
    | .sleep _ => true
    | _ => false).length

/-! ### Helper lemmas -/

theorem notifyCount_append (a b : List Action) :
    notifyCount (a ++ b) = notifyCount a + notifyCount b := by
  simp [notifyCount, List.filter_append]

theorem sleepCount_append (a b : List Action) :
    sleepCount (a ++ b) = sleepCount a + sleepCount b := by
  simp [sleepCount, List.filter_append]

/-- When the try block raises, the loop state is untouched. -/
theorem tryBody_raise_state {st : LoopState} {inp : CycleInput}
    {st1 : LoopState} {acts : List Action} {e : BotError}
    (h : tryBody st inp = (st1, acts, some e)) : st1 = st := by
  unfold tryBody at h
  repeat' split at h
  all_goals simp_all

/-- The try block never emits a sleep action. -/
theorem tryBody_no_sleep (st : LoopState) (inp : CycleInput) :
    sleepCount (tryBody st inp).2.1 = 0 := by
  obtain ⟨f, r, a⟩ := inp
  cases r <;>
  · unfold tryBody
    repeat' split
    all_goals simp_all [sleepCount, send_message]
    all_goals (rcases ‹_ ∧ _› with ⟨rfl, -⟩; simp)

/-- A fetch failure aborts the try block with no actions. -/
theorem tryBody_fetch_error (st : LoopState) (inp : CycleInput) {e : BotError}
    (h : get_api_answer inp.fetch = .error e) :
    tryBody st inp = (st, [], some e) := by
  unfold tryBody
  rw [h]

/-- A validation failure aborts the try block with no actions. -/
theorem tryBody_check_error {st : LoopState} {inp : CycleInput} {r : JValue}
    {e : BotError} (hf : inp.fetch = .ok r) (h : check_response r = .error e) :
    tryBody st inp = (st, [], some e) := by
  unfold tryBody
  rw [hf]
  show (match check_response r with | _ => _ : LoopState × List Action × Option BotError) = _
  rw [h]

/-- A cycle whose validated homeworks list is empty only logs a debug
line; the state is untouched. -/
theorem tryBody_empty {st : LoopState} {inp : CycleInput} {r : JValue}
    (hf : inp.fetch = .ok r) (h : check_response r = .ok []) :
    tryBody st inp = (st, [.logDebug "Новых статусов нет."], none) := by
  unfold tryBody
  rw [hf]
  show (match check_response r with | _ => _ : LoopState × List Action × Option BotError) = _
  rw [h]

/-- With a non-empty homeworks list, the try block processes exactly the
first record: its formatting error propagates; on formatting success the
record message is sent, a send failure propagates, and on delivery the
cursor is set from `current_date` and `last_message` is cleared. -/
theorem tryBody_record (st : LoopState) {inp : CycleInput} {r : JValue}
    {hw : JValue} {tl : List JValue}
    (hf : inp.fetch = .ok r) (h : check_response r = .ok (hw :: tl)) :
    tryBody st inp =
      (match parse_status hw with
       | .error e => (st, [], some e)
       | .ok message =>
         match send_message message inp.recordSend with
         | (sendActs, sendRes) =>
           match sendRes with
           | .error e => (st, sendActs, some e)
           | .ok _ =>
             ({ timestamp := pyGetD r "current_date" st.timestamp,
                last_message := "" }, sendActs, none)) := by
  unfold tryBody
  rw [hf]
  show (match check_response r with | _ => _ : LoopState × List Action × Option BotError) = _
  rw [h]

/-- A cycle whose try block succeeds keeps its actions and sleeps. -/
theorem runCycle_success {st st1 : LoopState} {inp : CycleInput}
    {acts : List Action} (h : tryBody st inp = (st1, acts, none)) :
    runCycle st inp = (st1, acts ++ [.sleep RETRY_PERIOD]) := by
  unfold runCycle
  rw [h]

/-- A cycle raising an error whose alert text equals `last_message` only
logs the error and sleeps: the alert send is suppressed and the state is
unchanged. -/
theorem runCycle_raise_dup {st st1 : LoopState} {inp : CycleInput}
    {acts : List Action} {e : BotError}
    (h : tryBody st inp = (st1, acts, some e))
    (hdup : alertText e = st.last_message) :
    runCycle st inp = (st, acts ++ [.logError (alertText e), .sleep RETRY_PERIOD]) := by
  have hst : st1 = st := tryBody_raise_state h
  subst hst
  unfold runCycle
  rw [h]
  simp [hdup]

/-- A cycle raising an error with a fresh alert text, whose alert is
delivered: the alert is sent and `last_message` is updated. -/
theorem runCycle_raise_new_delivered {st st1 : LoopState} {inp : CycleInput}
    {acts : List Action} {e : BotError}
    (h : tryBody st inp = (st1, acts, some e))
    (hne : alertText e ≠ st.last_message)
    (ha : inp.alertSend = .delivered) :
    runCycle st inp =
      ({ timestamp := st.timestamp, last_message := alertText e },
       acts ++ [.logError (alertText e), .notify (alertText e),
                .logDebug ("Сообщение отправлено: " ++ alertText e),
                .sleep RETRY_PERIOD]) := by
  have hst : st1 = st := tryBody_raise_state h
  subst hst
  unfold runCycle
  rw [h]
  simp [hne, send_message, ha]

/-- A cycle raising an error with a fresh alert text, whose alert send
itself fails: the failure is logged and swallowed, and `last_message` is
still updated. -/
theorem runCycle_raise_new_fail {st st1 : LoopState} {inp : CycleInput}
    {acts : List Action} {e : BotError} {et : String}
    (h : tryBody st inp = (st1, acts, some e))
    (hne : alertText e ≠ st.last_message)
    (ha : inp.alertSend = .transportFail et) :
    runCycle st inp =
      ({ timestamp := st.timestamp, last_message := alertText e },
       acts ++ [.logError (alertText e), .notify (alertText e),
                .logError ("Ошибка при отправке в Telegram: "
                           ++ ("Ошибка отправки сообщения: " ++ et)),
                .sleep RETRY_PERIOD]) := by
  have hst : st1 = st := tryBody_raise_state h
  subst hst
  unfold runCycle
  rw [h]
  simp [hne, send_message, ha, errMsg]

/-- A cycle raising an error with a fresh alert text, for any alert-send
outcome: the alert message reaches the Notifier and `last_message` is
updated, and the cursor is untouched. -/
theorem runCycle_raise_new {st st1 : LoopState} {inp : CycleInput}
    {acts : List Action} {e : BotError}
    (h : tryBody st inp = (st1, acts, some e))
    (hne : alertText e ≠ st.last_message) :
    (runCycle st inp).1 = { timestamp := st.timestamp, last_message := alertText e } ∧
    Action.notify (alertText e) ∈ (runCycle st inp).2 := by
  cases ha : inp.alertSend with
  | delivered =>
    rw [runCycle_raise_new_delivered h hne ha]
    simp
  | transportFail et =>
    rw [runCycle_raise_new_fail h hne ha]
    simp

theorem runLoop_nil (st : LoopState) : runLoop st [] = (st, []) := rfl

theorem runLoop_cons (st : LoopState) (inp : CycleInput)
    (rest : List CycleInput) :
    runLoop st (inp :: rest) =
      ((runLoop (runCycle st inp).1 rest).1,
       (runCycle st inp).2 ++ (runLoop (runCycle st inp).1 rest).2) := rfl

/-- On a successful cycle that processed a record, the new state has the
cursor read from the response's `current_date` (defaulting to the old
cursor) and an empty `last_message`. -/
theorem tryBody_success_state {st st1 : LoopState} {inp : CycleInput}
    {r hw : JValue} {tl : List JValue} {acts : List Action}
    (hf : inp.fetch = .ok r) (hc : check_response r = .ok (hw :: tl))
    (h : tryBody st inp = (st1, acts, none)) :
    st1 = { timestamp := pyGetD r "current_date" st.timestamp,
            last_message := "" } := by
  have ht := tryBody_record st hf hc
  rw [h] at ht
  rcases hps : parse_status hw with e | message <;> rw [hps] at ht
  · simp at ht
  · cases hr : inp.recordSend <;> rw [hr] at ht <;>
      simp [send_message] at ht
    exact ht.1

/-! ### Claim theorems -/

/-- Claim C1: error deduplication across cycles.  A cycle raising an
error whose alert text differs from `last_message` sends that text via
the Notifier and updates `last_message`; an identical text suppresses
the send.  Consequently two consecutive cycles raising the identical
transport-error text cause exactly one Notifier call across both, and a
third cycle with a different error text causes a second call. -/
theorem claim_C1 :
    (∀ (st : LoopState) (inp : CycleInput) (st1 : LoopState)
       (acts : List Action) (e : BotError),
       tryBody st inp = (st1, acts, some e) →
       alertText e ≠ st.last_message →
       Action.notify (alertText e) ∈ (runCycle st inp).2 ∧
       (runCycle st inp).1.last_message = alertText e) ∧
    (∀ (st : LoopState) (inp : CycleInput) (st1 : LoopState)
       (acts : List Action) (e : BotError),
       tryBody st inp = (st1, acts, some e) →
       alertText e = st.last_message →
       runCycle st inp =
         (st, acts ++ [.logError (alertText e), .sleep RETRY_PERIOD])) ∧
    (∀ (st : LoopState) (t tOther : String),
       alertText (.apiRequest ("Ошибка запроса к API: " ++ t))
         ≠ st.last_message →
       alertText (.apiRequest ("Ошибка запроса к API: " ++ tOther))
         ≠ alertText (.apiRequest ("Ошибка запроса к API: " ++ t)) →
       notifyCount (runLoop st
         [⟨.requestError t, .delivered, .delivered⟩,
          ⟨.requestError t, .delivered, .delivered⟩]).2 = 1 ∧
       notifyCount (runLoop st
         [⟨.requestError t, .delivered, .delivered⟩,
          ⟨.requestError t, .delivered, .delivered⟩,
          ⟨.requestError tOther, .delivered, .delivered⟩]).2 = 2) := by
  refine ⟨fun st inp st1 acts e h hne =>
            ⟨(runCycle_raise_new h hne).2,
             by rw [(runCycle_raise_new h hne).1]⟩,
          fun st inp st1 acts e h hdup => runCycle_raise_dup h hdup,
          fun st t tOther hfresh hdiff => ?_⟩
  have h1 : tryBody st ⟨.requestError t, .delivered, .delivered⟩
      = (st, [], some (.apiRequest ("Ошибка запроса к API: " ++ t))) :=
    tryBody_fetch_error _ _ rfl
  have hc1 := runCycle_raise_new_delivered h1 hfresh rfl
  have h2 : tryBody
      ({ timestamp := st.timestamp,
         last_message := alertText (.apiRequest ("Ошибка запроса к API: " ++ t)) } : LoopState)
      ⟨.requestError t, .delivered, .delivered⟩
      = ({ timestamp := st.timestamp,
           last_message := alertText (.apiRequest ("Ошибка запроса к API: " ++ t)) },
         [], some (.apiRequest ("Ошибка запроса к API: " ++ t))) :=
    tryBody_fetch_error _ _ rfl
  have hc2 := runCycle_raise_dup h2 rfl
  have h3 : tryBody
      ({ timestamp := st.timestamp,
         last_message := alertText (.apiRequest ("Ошибка запроса к API: " ++ t)) } : LoopState)
      ⟨.requestError tOther, .delivered, .delivered⟩
      = ({ timestamp := st.timestamp,
           last_message := alertText (.apiRequest ("Ошибка запроса к API: " ++ t)) },
         [], some (.apiRequest ("Ошибка запроса к API: " ++ tOther))) :=
    tryBody_fetch_error _ _ rfl
  have hc3 := runCycle_raise_new_delivered h3 hdiff rfl
  constructor
  · rw [runLoop_cons, runLoop_cons, runLoop_nil, hc1]
    rw [hc2]
    rfl
  · rw [runLoop_cons, runLoop_cons, runLoop_cons, runLoop_nil, hc1]
    rw [hc2, hc3]
    rfl

/-- Witness for C1: from a fresh state, two identical transport-error
cycles produce one Notifier call, a third differing cycle a second one,
and the first cycle records the alert text. -/
theorem claim_C1_witness :
    (Action.notify "Сбой в работе программы: Ошибка запроса к API: boom" ∈
       (runCycle ⟨.jint 0, ""⟩
         ⟨.requestError "boom", .delivered, .delivered⟩).2 ∧
     (runCycle ⟨.jint 0, ""⟩
         ⟨.requestError "boom", .delivered, .delivered⟩).1.last_message
       = "Сбой в работе программы: Ошибка запроса к API: boom") ∧
    notifyCount (runLoop ⟨.jint 0, ""⟩
      [⟨.requestError "boom", .delivered, .delivered⟩,
       ⟨.requestError "boom", .delivered, .delivered⟩]).2 = 1 ∧
    notifyCount (runLoop ⟨.jint 0, ""⟩
      [⟨.requestError "boom", .delivered, .delivered⟩,
       ⟨.requestError "boom", .delivered, .delivered⟩,
       ⟨.requestError "bang", .delivered, .delivered⟩]).2 = 2 := by
  refine ⟨?_, ?_, ?_⟩
  · exact claim_C1.1 ⟨.jint 0, ""⟩ ⟨.requestError "boom", .delivered, .delivered⟩
      ⟨.jint 0, ""⟩ [] (.apiRequest ("Ошибка запроса к API: " ++ "boom"))
      rfl (by decide)
  · exact (claim_C1.2.2 ⟨.jint 0, ""⟩ "boom" "bang" (by decide) (by decide)).1
  · exact (claim_C1.2.2 ⟨.jint 0, ""⟩ "boom" "bang" (by decide) (by decide)).2

/-- Counterexample for C2 as stated: a fully successful cycle whose
homeworks list is empty (the `else` branch of `main`) leaves the cursor
at its old value and does not clear `last_message`, although the
response carries `current_date = 42`. -/
theorem claim_C2_cex :
    (tryBody ⟨.jint 5, "old"⟩
       ⟨.ok (.jdict [("homeworks", .jlist []), ("current_date", .jint 42)]),
        .delivered, .delivered⟩).2.2 = none ∧
    ¬ ((runCycle ⟨.jint 5, "old"⟩
         ⟨.ok (.jdict [("homeworks", .jlist []), ("current_date", .jint 42)]),
          .delivered, .delivered⟩).1.timestamp = .jint 42 ∧
       (runCycle ⟨.jint 5, "old"⟩
         ⟨.ok (.jdict [("homeworks", .jlist []), ("current_date", .jint 42)]),
          .delivered, .delivered⟩).1.last_message = "") := by
  refine ⟨rfl, fun hcl => ?_⟩
  have hts : JValue.jint 5 = JValue.jint 42 := hcl.1
  simp at hts

/-- Claim C2 (amended): after a cycle that fails, the cursor is unchanged
from its pre-cycle value.  After a fully successful cycle with an empty
homeworks list, the whole state (cursor and `last_message`) is unchanged.
After a fully successful cycle that processed a record, the cursor equals
the response's `current_date` value when that key is present (and is
unchanged otherwise), and `last_message` is cleared to empty. -/
theorem claim_C2 :
    (∀ (st : LoopState) (inp : CycleInput) (st1 : LoopState)
       (acts : List Action) (e : BotError),
       tryBody st inp = (st1, acts, some e) →
       (runCycle st inp).1.timestamp = st.timestamp) ∧
    (∀ (st : LoopState) (inp : CycleInput) (r : JValue),
       inp.fetch = .ok r → check_response r = .ok [] →
       (runCycle st inp).1 = st) ∧
    (∀ (st : LoopState) (inp : CycleInput) (r hw : JValue)
       (tl : List JValue) (st1 : LoopState) (acts : List Action),
       inp.fetch = .ok r → check_response r = .ok (hw :: tl) →
       tryBody st inp = (st1, acts, none) →
       (runCycle st inp).1.timestamp = pyGetD r "current_date" st.timestamp ∧
       (runCycle st inp).1.last_message = "") := by
  refine ⟨fun st inp st1 acts e h => ?_, fun st inp r hf hc => ?_,
          fun st inp r hw tl st1 acts hf hc h => ?_⟩
  · by_cases hdup : alertText e = st.last_message
    · rw [runCycle_raise_dup h hdup]
    · rw [(runCycle_raise_new h hdup).1]
  · rw [runCycle_success (tryBody_empty hf hc)]
  · have hst := tryBody_success_state hf hc h
    rw [runCycle_success h, hst]
    exact ⟨rfl, rfl⟩

/-- Witness for C2: a failing cycle keeps the cursor; an empty successful
cycle keeps the whole state; a record-delivering successful cycle sets
the cursor to `current_date` and clears `last_message`. -/
theorem claim_C2_witness :
    (runCycle ⟨.jint 3, "x"⟩
      ⟨.requestError "boom", .delivered, .delivered⟩).1.timestamp = .jint 3 ∧
    (runCycle ⟨.jint 5, "old"⟩
      ⟨.ok (.jdict [("homeworks", .jlist []), ("current_date", .jint 42)]),
       .delivered, .delivered⟩).1 = ⟨.jint 5, "old"⟩ ∧
    ((runCycle ⟨.jint 5, "old"⟩
       ⟨.ok (.jdict [("homeworks", .jlist
           [.jdict [("homework_name", .jstr "A"), ("status", .jstr "approved")]]),
         ("current_date", .jint 7)]), .delivered, .delivered⟩).1.timestamp
       = .jint 7 ∧
     (runCycle ⟨.jint 5, "old"⟩
       ⟨.ok (.jdict [("homeworks", .jlist
           [.jdict [("homework_name", .jstr "A"), ("status", .jstr "approved")]]),
         ("current_date", .jint 7)]), .delivered, .delivered⟩).1.last_message
       = "") := by
  refine ⟨?_, ?_, ?_⟩
  · exact claim_C2.1 ⟨.jint 3, "x"⟩ ⟨.requestError "boom", .delivered, .delivered⟩
      ⟨.jint 3, "x"⟩ [] (.apiRequest ("Ошибка запроса к API: " ++ "boom")) rfl
  · exact claim_C2.2.1 ⟨.jint 5, "old"⟩
      ⟨.ok (.jdict [("homeworks", .jlist []), ("current_date", .jint 42)]),
       .delivered, .delivered⟩
      (.jdict [("homeworks", .jlist []), ("current_date", .jint 42)]) rfl rfl
  · exact claim_C2.2.2 ⟨.jint 5, "old"⟩
      ⟨.ok (.jdict [("homeworks", .jlist
          [.jdict [("homework_name", .jstr "A"), ("status", .jstr "approved")]]),
        ("current_date", .jint 7)]), .delivered, .delivered⟩
      (.jdict [("homeworks", .jlist
          [.jdict [("homework_name", .jstr "A"), ("status", .jstr "approved")]]),
        ("current_date", .jint 7)])
      (.jdict [("homework_name", .jstr "A"), ("status", .jstr "approved")])
      [] ⟨.jint 7, ""⟩
      [.notify "Изменился статус проверки работы \"A\". Работа проверена: ревьюеру всё понравилось. Ура!",
       .logDebug "Сообщение отправлено: Изменился статус проверки работы \"A\". Работа проверена: ревьюеру всё понравилось. Ура!"]
      rfl rfl rfl

/-- Counterexample for C3 as stated: a validated response carrying two
well-formed records triggers exactly one Notifier call — the formatted
message of the second record is never sent, with no error raised. -/
theorem claim_C3_cex :
    notifyCount (runCycle ⟨.jint 0, ""⟩
      ⟨.ok (.jdict [("homeworks", .jlist
          [.jdict [("homework_name", .jstr "A"), ("status", .jstr "approved")],
           .jdict [("homework_name", .jstr "B"), ("status", .jstr "rejected")]]),
        ("current_date", .jint 1)]), .delivered, .delivered⟩).2 = 1 ∧
    Action.notify "Изменился статус проверки работы \"B\". Работа проверена: у ревьюера есть замечания."
      ∉ (runCycle ⟨.jint 0, ""⟩
      ⟨.ok (.jdict [("homeworks", .jlist
          [.jdict [("homework_name", .jstr "A"), ("status", .jstr "approved")],
           .jdict [("homework_name", .jstr "B"), ("status", .jstr "rejected")]]),
        ("current_date", .jint 1)]), .delivered, .delivered⟩).2 := by
  exact ⟨rfl, by decide⟩

/-- Claim C3 (amended): for every validated response with a non-empty
homeworks sequence, the loop formats and sends only the first record;
the remaining records are not processed in that cycle.  A formatting
error on that first record, or a transport failure while sending its
message, propagates to the loop boundary (the record is not skipped). -/
theorem claim_C3 (st : LoopState) (inp : CycleInput) (r hw : JValue)
    (tl : List JValue) (hf : inp.fetch = .ok r)
    (hc : check_response r = .ok (hw :: tl)) :
    (∀ e, parse_status hw = .error e → tryBody st inp = (st, [], some e)) ∧
    (∀ message, parse_status hw = .ok message →
       (tryBody st inp).2.1 = (send_message message inp.recordSend).1) ∧
    (∀ message et, parse_status hw = .ok message →
       inp.recordSend = .transportFail et →
       tryBody st inp =
         (st, [.notify message],
          some (.apiRequest ("Ошибка отправки сообщения: " ++ et)))) := by
  have ht := tryBody_record st hf hc
  refine ⟨fun e hps => ?_, fun message hps => ?_, fun message et hps hr => ?_⟩
  · rw [ht, hps]
  · rw [ht, hps]
    cases hr : inp.recordSend <;> rfl
  · rw [ht, hps, hr]
    rfl

/-- Witness for C3: with two well-formed records only the first message
is produced; with a failing transport on the first record's send, the
cycle aborts with the re-raised `APIRequestError`. -/
theorem claim_C3_witness :
    (tryBody ⟨.jint 0, ""⟩
      ⟨.ok (.jdict [("homeworks", .jlist
          [.jdict [("homework_name", .jstr "A"), ("status", .jstr "approved")],
           .jdict [("homework_name", .jstr "B"), ("status", .jstr "rejected")]]),
        ("current_date", .jint 1)]), .delivered, .delivered⟩).2.1 =
      [.notify "Изменился статус проверки работы \"A\". Работа проверена: ревьюеру всё понравилось. Ура!",
       .logDebug "Сообщение отправлено: Изменился статус проверки работы \"A\". Работа проверена: ревьюеру всё понравилось. Ура!"] ∧
    tryBody ⟨.jint 0, ""⟩
      ⟨.ok (.jdict [("homeworks", .jlist
          [.jdict [("homework_name", .jstr "A"), ("status", .jstr "approved")],
           .jdict [("homework_name", .jstr "B"), ("status", .jstr "rejected")]]),
        ("current_date", .jint 1)]), .transportFail "tg-down", .delivered⟩ =
      (⟨.jint 0, ""⟩,
       [.notify "Изменился статус проверки работы \"A\". Работа проверена: ревьюеру всё понравилось. Ура!"],
       some (.apiRequest "Ошибка отправки сообщения: tg-down")) := by
  constructor
  · exact (claim_C3 ⟨.jint 0, ""⟩ _
      (.jdict [("homeworks", .jlist
          [.jdict [("homework_name", .jstr "A"), ("status", .jstr "approved")],
           .jdict [("homework_name", .jstr "B"), ("status", .jstr "rejected")]]),
        ("current_date", .jint 1)])
      (.jdict [("homework_name", .jstr "A"), ("status", .jstr "approved")])
      [.jdict [("homework_name", .jstr "B"), ("status", .jstr "rejected")]]
      rfl rfl).2.1
      "Изменился статус проверки работы \"A\". Работа проверена: ревьюеру всё понравилось. Ура!" rfl
  · exact (claim_C3 ⟨.jint 0, ""⟩ _
      (.jdict [("homeworks", .jlist
          [.jdict [("homework_name", .jstr "A"), ("status", .jstr "approved")],
           .jdict [("homework_name", .jstr "B"), ("status", .jstr "rejected")]]),
        ("current_date", .jint 1)])
      (.jdict [("homework_name", .jstr "A"), ("status", .jstr "approved")])
      [.jdict [("homework_name", .jstr "B"), ("status", .jstr "rejected")]]
      rfl rfl).2.2
      "Изменился статус проверки работы \"A\". Работа проверена: ревьюеру всё понравилось. Ура!"
      "tg-down" rfl rfl

/-- Counterexample for C4 as stated: a transport failure inside
`send_message` is not swallowed — it escapes the send operation as a
raised `APIRequestError`. -/
theorem claim_C4_cex :
    send_message "hello" (.transportFail "boom") =
      ([.notify "hello"],
       .error (.apiRequest "Ошибка отправки сообщения: boom")) := rfl

/-- Claim C4 (amended): `send_message` converts a messaging-transport
failure into a raised `APIRequestError`, so a failure while sending a
record message does propagate into the loop's error-classification path.
Only the alert send in the `except` handler swallows the failure: it is
logged, `last_message` is still updated, and the cycle completes with
its sleep — the process never crashes. -/
theorem claim_C4 :
    (∀ m et, send_message m (.transportFail et) =
       ([.notify m],
        .error (.apiRequest ("Ошибка отправки сообщения: " ++ et)))) ∧
    (∀ (st : LoopState) (inp : CycleInput) (st1 : LoopState)
       (acts : List Action) (e : BotError) (et : String),
       tryBody st inp = (st1, acts, some e) →
       alertText e ≠ st.last_message →
       inp.alertSend = .transportFail et →
       runCycle st inp =
         ({ timestamp := st.timestamp, last_message := alertText e },
          acts ++ [.logError (alertText e), .notify (alertText e),
                   .logError ("Ошибка при отправке в Telegram: "
                              ++ ("Ошибка отправки сообщения: " ++ et)),
                   .sleep RETRY_PERIOD])) := by
  exact ⟨fun m et => rfl,
         fun st inp st1 acts e et h hne ha =>
           runCycle_raise_new_fail h hne ha⟩

/-- Witness for C4: a cycle whose fetch fails and whose alert send also
fails still completes — the alert failure is logged, `last_message` is
updated, and the cycle ends with its sleep. -/
theorem claim_C4_witness :
    send_message "m" (.transportFail "x") =
      ([.notify "m"], .error (.apiRequest "Ошибка отправки сообщения: x")) ∧
    runCycle ⟨.jint 0, ""⟩
        ⟨.requestError "boom", .delivered, .transportFail "tg-down"⟩ =
      (⟨.jint 0, "Сбой в работе программы: Ошибка запроса к API: boom"⟩,
       [.logError "Сбой в работе программы: Ошибка запроса к API: boom",
        .notify "Сбой в работе программы: Ошибка запроса к API: boom",
        .logError "Ошибка при отправке в Telegram: Ошибка отправки сообщения: tg-down",
        .sleep RETRY_PERIOD]) := by
  constructor
  · exact claim_C4.1 "m" "x"
  · exact claim_C4.2 ⟨.jint 0, ""⟩
      ⟨.requestError "boom", .delivered, .transportFail "tg-down"⟩
      ⟨.jint 0, ""⟩ [] (.apiRequest ("Ошибка запроса к API: " ++ "boom"))
      "tg-down" rfl (by decide) rfl

/-- Counterexample for C5 as stated: `check_response` accepts a payload
with no `current_date` key at all — no `FormatError` is raised — and its
successful result is only the records list, not a (records, nextCursor)
pair. -/
theorem claim_C5_cex :
    check_response (.jdict [("homeworks", .jlist [])]) = .ok [] := rfl

/-- Claim C5 (amended): `check_response` checks that the payload is a
dict (else `TypeError`), that the key `homeworks` is present (else
`APIResponseFormatError`) and that its value is a list (else
`TypeError`), and returns only the records list.  It performs no check
on `current_date`; the loop reads the cursor separately via
`response.get('current_date', timestamp)`, defaulting to the old cursor,
with no presence or type check. -/
theorem claim_C5 :
    (∀ (entries : List (String × JValue)) (xs : List JValue),
       lookupEntry entries "homeworks" = some (.jlist xs) →
       check_response (.jdict entries) = .ok xs) ∧
    (∀ entries : List (String × JValue),
       lookupEntry entries "homeworks" = none →
       check_response (.jdict entries) =
         .error (.responseFormat "Отсутствует ключ \"homeworks\".")) ∧
    (∀ (entries : List (String × JValue)) (other : JValue),
       lookupEntry entries "homeworks" = some other →
       (∀ xs, other ≠ .jlist xs) →
       check_response (.jdict entries) =
         .error (.typeError ("\"homeworks\" должен быть списком, получено "
                             ++ pyType other))) ∧
    (∀ v : JValue, (∀ entries, v ≠ .jdict entries) →
       check_response v =
         .error (.typeError ("Ожидался словарь в ответе API, получено "
                             ++ pyType v))) ∧
    (∀ (st : LoopState) (inp : CycleInput) (r hw : JValue)
       (tl : List JValue) (st1 : LoopState) (acts : List Action),
       inp.fetch = .ok r → check_response r = .ok (hw :: tl) →
       tryBody st inp = (st1, acts, none) →
       st1.timestamp = pyGetD r "current_date" st.timestamp) := by
  refine ⟨fun entries xs h => ?_, fun entries h => ?_,
          fun entries other h hnl => ?_, fun v hnd => ?_,
          fun st inp r hw tl st1 acts hf hc h => ?_⟩
  · simp [check_response, h]
  · simp [check_response, h]
  · rcases other with - | n | s | items | es
    · simp [check_response, h]
    · simp [check_response, h]
    · simp [check_response, h]
    · exact absurd rfl (hnl items)
    · simp [check_response, h]
  · rcases v with - | n | s | items | es
    · simp [check_response]
    · simp [check_response]
    · simp [check_response]
    · simp [check_response]
    · exact absurd rfl (hnd es)
  · rw [tryBody_success_state hf hc h]

/-- Witness for C5: each validation branch at a concrete payload, and
the unvalidated cursor read on a successful record cycle. -/
theorem claim_C5_witness :
    check_response (.jdict [("homeworks", .jlist [.jint 9])]) = .ok [.jint 9] ∧
    check_response (.jdict [("x", .jint 1)]) =
      .error (.responseFormat "Отсутствует ключ \"homeworks\".") ∧
    check_response (.jdict [("homeworks", .jint 3)]) =
      .error (.typeError
        "\"homeworks\" должен быть списком, получено <class \x27int\x27>") ∧
    check_response (.jlist []) =
      .error (.typeError
        "Ожидался словарь в ответе API, получено <class \x27list\x27>") ∧
    (tryBody ⟨.jint 5, "old"⟩
      ⟨.ok (.jdict [("homeworks", .jlist
          [.jdict [("homework_name", .jstr "A"), ("status", .jstr "approved")]])]),
       .delivered, .delivered⟩).1.timestamp = .jint 5 := by
  refine ⟨?_, ?_, ?_, ?_, ?_⟩
  · exact claim_C5.1 [("homeworks", .jlist [.jint 9])] [.jint 9] rfl
  · exact claim_C5.2.1 [("x", .jint 1)] rfl
  · exact claim_C5.2.2.1 [("homeworks", .jint 3)] (.jint 3) rfl
      (fun xs h => by cases h)
  · exact claim_C5.2.2.2.1 (.jlist []) (fun entries h => by cases h)
  · rw [claim_C5.2.2.2.2 ⟨.jint 5, "old"⟩
      ⟨.ok (.jdict [("homeworks", .jlist
          [.jdict [("homework_name", .jstr "A"), ("status", .jstr "approved")]])]),
       .delivered, .delivered⟩
      (.jdict [("homeworks", .jlist
          [.jdict [("homework_name", .jstr "A"), ("status", .jstr "approved")]])])
      (.jdict [("homework_name", .jstr "A"), ("status", .jstr "approved")])
      [] (tryBody ⟨.jint 5, "old"⟩
        ⟨.ok (.jdict [("homeworks", .jlist
            [.jdict [("homework_name", .jstr "A"), ("status", .jstr "approved")]])]),
         .delivered, .delivered⟩).1
      (tryBody ⟨.jint 5, "old"⟩
        ⟨.ok (.jdict [("homeworks", .jlist
            [.jdict [("homework_name", .jstr "A"), ("status", .jstr "approved")]])]),
         .delivered, .delivered⟩).2.1
      rfl rfl rfl]
    rfl

/-- Counterexample for C9 as stated: starting from cursor 100, a fully
successful cycle whose response carries `current_date = 0` moves the
cursor backwards to 0 — the code does not enforce forward movement. -/
theorem claim_C9_cex :
    (runCycle ⟨.jint 100, ""⟩
      ⟨.ok (.jdict [("homeworks", .jlist
          [.jdict [("homework_name", .jstr "A"), ("status", .jstr "approved")]]),
        ("current_date", .jint 0)]), .delivered, .delivered⟩).1.timestamp
      = .jint 0 ∧
    ¬ ((100 : Int) ≤ 0) := ⟨rfl, by decide⟩

/-- Claim C9 (amended): the cursor changes only as the result of a fully
successful cycle that delivered a record, and then it is set to the
response's `current_date` value (defaulting to the old cursor when the
key is absent); the code does not constrain that value, so forward
movement is not enforced. -/
theorem claim_C9 (st : LoopState) (inp : CycleInput)
    (h : (runCycle st inp).1.timestamp ≠ st.timestamp) :
    (tryBody st inp).2.2 = none ∧
    ∃ (r hw : JValue) (tl : List JValue),
      inp.fetch = .ok r ∧ check_response r = .ok (hw :: tl) ∧
      (runCycle st inp).1.timestamp = pyGetD r "current_date" st.timestamp := by
  rcases ht : tryBody st inp with ⟨st1, acts, err⟩
  cases err with
  | some e =>
    exfalso
    apply h
    by_cases hdup : alertText e = st.last_message
    · rw [runCycle_raise_dup ht hdup]
    · rw [(runCycle_raise_new ht hdup).1]
  | none =>
    cases hfo : inp.fetch with
    | requestError t =>
      have := (tryBody_fetch_error st inp
        (by rw [hfo]; rfl)).symm.trans ht
      simp at this
    | badStatus c b =>
      have := (tryBody_fetch_error st inp
        (by rw [hfo]; rfl)).symm.trans ht
      simp at this
    | ok r =>
      rcases hcr : check_response r with e | l
      · have := (tryBody_check_error hfo hcr).symm.trans ht
        simp at this
      · cases l with
        | nil =>
          exfalso
          apply h
          have := (tryBody_empty hfo hcr).symm.trans ht
          simp at this
          rw [runCycle_success ht, this.1]
        | cons hw tl =>
          have hst := tryBody_success_state hfo hcr ht
          exact ⟨rfl, r, hw, tl, rfl, hcr,
            by rw [runCycle_success ht, hst]⟩

/-- Witness for C9: a cycle that changed the cursor (0 → 7) was a fully
successful record-delivering cycle and took the new cursor from
`current_date`. -/
theorem claim_C9_witness :
    (tryBody ⟨.jint 0, ""⟩
      ⟨.ok (.jdict [("homeworks", .jlist
          [.jdict [("homework_name", .jstr "A"), ("status", .jstr "approved")]]),
        ("current_date", .jint 7)]), .delivered, .delivered⟩).2.2 = none ∧
    ∃ (r hw : JValue) (tl : List JValue),
      (⟨.ok (.jdict [("homeworks", .jlist
          [.jdict [("homework_name", .jstr "A"), ("status", .jstr "approved")]]),
        ("current_date", .jint 7)]), .delivered, .delivered⟩ : CycleInput).fetch
        = .ok r ∧
      check_response r = .ok (hw :: tl) ∧
      (runCycle ⟨.jint 0, ""⟩
        ⟨.ok (.jdict [("homeworks", .jlist
            [.jdict [("homework_name", .jstr "A"), ("status", .jstr "approved")]]),
          ("current_date", .jint 7)]), .delivered, .delivered⟩).1.timestamp
        = pyGetD (.jdict [("homeworks", .jlist
            [.jdict [("homework_name", .jstr "A"), ("status", .jstr "approved")]]),
          ("current_date", .jint 7)]) "current_date" (.jint 0) := by
  have h := claim_C9 ⟨.jint 0, ""⟩
    ⟨.ok (.jdict [("homeworks", .jlist
        [.jdict [("homework_name", .jstr "A"), ("status", .jstr "approved")]]),
      ("current_date", .jint 7)]), .delivered, .delivered⟩
    (fun hc => by
      have h7 : JValue.jint 7 = JValue.jint 0 := hc
      simp at h7)
  obtain ⟨h1, r, hw, tl, h2, h3, h4⟩ := h
  exact ⟨h1, r, hw, tl, h2, h3, by
    rw [h4]
    have hr : r = .jdict [("homeworks", .jlist
        [.jdict [("homework_name", .jstr "A"), ("status", .jstr "approved")]]),
      ("current_date", .jint 7)] := by
      cases h2
      rfl
    rw [hr]⟩

/-- Claim C10: when a cycle raises an error whose alert text differs
from `last_message`, `last_message` is updated to the new text even when
the alert send itself fails; consequently the undelivered alert is never
retried — any later cycle raising the same error text has its alert
suppressed by deduplication. -/
theorem claim_C10 (st : LoopState) (inp : CycleInput) (st1 : LoopState)
    (acts : List Action) (e : BotError) (et : String)
    (h : tryBody st inp = (st1, acts, some e))
    (hne : alertText e ≠ st.last_message)
    (ha : inp.alertSend = .transportFail et) :
    (runCycle st inp).1.last_message = alertText e ∧
    (∀ (inp2 : CycleInput) (st2 : LoopState) (acts2 : List Action)
       (e2 : BotError),
       tryBody (runCycle st inp).1 inp2 = (st2, acts2, some e2) →
       alertText e2 = alertText e →
       notifyCount (runCycle (runCycle st inp).1 inp2).2
         = notifyCount acts2) := by
  have hc := runCycle_raise_new_fail h hne ha
  constructor
  · rw [hc]
  · intro inp2 st2 acts2 e2 h2 heq
    have hdup : alertText e2 = (runCycle st inp).1.last_message := by
      rw [hc]
      exact heq
    rw [runCycle_raise_dup h2 hdup]
    rw [notifyCount_append]
    rfl

/-- Witness for C10: a cycle whose alert send fails still records the
alert text, and a following cycle raising the same error makes no
Notifier call at all. -/
theorem claim_C10_witness :
    (runCycle ⟨.jint 0, ""⟩
      ⟨.requestError "boom", .delivered, .transportFail "tg-down"⟩).1.last_message
      = "Сбой в работе программы: Ошибка запроса к API: boom" ∧
    notifyCount (runCycle
      (runCycle ⟨.jint 0, ""⟩
        ⟨.requestError "boom", .delivered, .transportFail "tg-down"⟩).1
      ⟨.requestError "boom", .delivered, .delivered⟩).2 = 0 := by
  have h := claim_C10 ⟨.jint 0, ""⟩
    ⟨.requestError "boom", .delivered, .transportFail "tg-down"⟩
    ⟨.jint 0, ""⟩ [] (.apiRequest ("Ошибка запроса к API: " ++ "boom"))
    "tg-down" rfl (by decide) rfl
  exact ⟨h.1, h.2 ⟨.requestError "boom", .delivered, .delivered⟩
    (runCycle ⟨.jint 0, ""⟩
      ⟨.requestError "boom", .delivered, .transportFail "tg-down"⟩).1
    [] (.apiRequest ("Ошибка запроса к API: " ++ "boom")) rfl rfl⟩

/-- Claim C6: for every cycle, regardless of outcome (full success,
recoverable error anywhere in fetch/validate/format/send, or
record-level failure mid-cycle), the fixed-duration sleep
(`RETRY_PERIOD = 600` seconds) is executed exactly once, as the last
action of the cycle, before the next cycle begins. -/
theorem claim_C6 (st : LoopState) (inp : CycleInput) :
    (∃ pre, (runCycle st inp).2 = pre ++ [Action.sleep RETRY_PERIOD] ∧
       sleepCount pre = 0) ∧ RETRY_PERIOD = 600 := by
  refine ⟨?_, rfl⟩
  rcases ht : tryBody st inp with ⟨st1, acts, err⟩
  have hns : sleepCount acts = 0 := by
    have h0 := tryBody_no_sleep st inp
    rw [ht] at h0
    exact h0
  cases err with
  | none =>
    rw [runCycle_success ht]
    exact ⟨acts, rfl, hns⟩
  | some e =>
    by_cases hdup : alertText e = st.last_message
    · rw [runCycle_raise_dup ht hdup]
      exact ⟨acts ++ [.logError (alertText e)],
        by simp, by rw [sleepCount_append, hns]; rfl⟩
    · cases ha : inp.alertSend with
      | delivered =>
        rw [runCycle_raise_new_delivered ht hdup ha]
        refine ⟨acts ++ [.logError (alertText e), .notify (alertText e),
          .logDebug ("Сообщение отправлено: " ++ alertText e)], by simp, ?_⟩
        rw [sleepCount_append, hns]; rfl
      | transportFail et =>
        rw [runCycle_raise_new_fail ht hdup ha]
        refine ⟨acts ++ [.logError (alertText e), .notify (alertText e),
          .logError ("Ошибка при отправке в Telegram: "
                     ++ ("Ошибка отправки сообщения: " ++ et))], by simp, ?_⟩
        rw [sleepCount_append, hns]; rfl

/-- Claim C7: `check_tokens` checks all three credentials independently;
when any are missing or empty it raises a single aggregated
`TokenMissingError` naming exactly the missing credentials, in order, no
more, no fewer; when none are missing it succeeds. -/
theorem claim_C7 (c : Credentials) :
    (missingTokens c = [] → check_tokens c = .ok ()) ∧
    (missingTokens c ≠ [] →
      check_tokens c = .error (.tokenMissing
        ("Отсутствуют переменные: "
         ++ String.intercalate ", " (missingTokens c)))) ∧
    (∀ n : String, n ∈ missingTokens c ↔
      ((n = "PRACTICUM_TOKEN" ∧ tokenFalsy c.practicum_token) ∨
       (n = "TELEGRAM_TOKEN" ∧ tokenFalsy c.telegram_token) ∨
       (n = "TELEGRAM_CHAT_ID" ∧ tokenFalsy c.telegram_chat_id))) := by
  obtain ⟨p, t, ch⟩ := c
  refine ⟨fun h => by simp [check_tokens, h], fun h => ?_, fun n => ?_⟩
  · rcases hm : missingTokens ⟨p, t, ch⟩ with - | ⟨a, l⟩
    · exact absurd hm h
    · simp [check_tokens, hm]
  · cases hp : tokenFalsy p <;> cases ht : tokenFalsy t <;>
      cases hc : tokenFalsy ch <;>
      simp_all [missingTokens, required_tokens]

/-- Claim C8: for every record whose name is present (not `None`) and
whose status is a key of the fixed `HOMEWORK_VERDICTS` map,
`parse_status` returns exactly the fixed template — the code's constant
prefix, the quoted name, then the exact mapped verdict phrase; for every
record whose status is not a key of the map, it raises
`StatusUnknownError` naming the unrecognized status value. -/
theorem claim_C8 (entries : List (String × JValue)) (nv : JValue)
    (hname : pyGet entries "homework_name" = nv) (hnn : nv ≠ .jnull) :
    (∀ s v, pyGet entries "status" = .jstr s →
       lookupEntry HOMEWORK_VERDICTS s = some v →
       parse_status (.jdict entries) =
         .ok ("Изменился статус проверки работы \"" ++ pyStr nv
              ++ "\". " ++ v)) ∧
    (∀ sv, pyGet entries "status" = sv → verdictOf sv = none →
       parse_status (.jdict entries) =
         .error (.statusUnknown ("Неизвестный статус: " ++ pyStr sv))) := by
  constructor
  · intro s v hs hv
    cases nv with
    | jnull => exact absurd rfl hnn
    | jint n => simp [parse_status, hname, hs, verdictOf, hv]
    | jstr w => simp [parse_status, hname, hs, verdictOf, hv]
    | jlist items => simp [parse_status, hname, hs, verdictOf, hv]
    | jdict es => simp [parse_status, hname, hs, verdictOf, hv]
  · intro sv hs hv
    cases nv with
    | jnull => exact absurd rfl hnn
    | jint n => simp [parse_status, hname, hs, hv]
    | jstr w => simp [parse_status, hname, hs, hv]
    | jlist items => simp [parse_status, hname, hs, hv]
    | jdict es => simp [parse_status, hname, hs, hv]

/-- Witness for C7 at concrete inputs: first and third credentials
missing/empty yields exactly those two names; all present succeeds. -/
theorem claim_C7_witness :
    check_tokens ⟨none, some "tok", some ""⟩ =
      .error (.tokenMissing
        "Отсутствуют переменные: PRACTICUM_TOKEN, TELEGRAM_CHAT_ID") ∧
    check_tokens ⟨some "a", some "b", some "c"⟩ = .ok () := by
  constructor
  · exact ((claim_C7 ⟨none, some "tok", some ""⟩).2.1 (by decide)).trans (by rfl)
  · exact (claim_C7 ⟨some "a", some "b", some "c"⟩).1 (by decide)

/-- Witness for C8 at a concrete record: an approved status yields the
exact template with the approved verdict; an unknown status raises
`StatusUnknownError` naming it. -/
theorem claim_C8_witness :
    parse_status (.jdict [("homework_name", .jstr "X"),
                          ("status", .jstr "approved")]) =
      .ok "Изменился статус проверки работы \"X\". Работа проверена: ревьюеру всё понравилось. Ура!" ∧
    parse_status (.jdict [("homework_name", .jstr "X"),
                          ("status", .jstr "unknown")]) =
      .error (.statusUnknown "Неизвестный статус: unknown") := by
  constructor
  · exact (((claim_C8 [("homework_name", .jstr "X"), ("status", .jstr "approved")]
      (.jstr "X") rfl (by simp)).1) "approved"
      "Работа проверена: ревьюеру всё понравилось. Ура!" rfl rfl).trans (by rfl)
  · exact (((claim_C8 [("homework_name", .jstr "X"), ("status", .jstr "unknown")]
      (.jstr "X") rfl (by simp)).2) (.jstr "unknown") rfl rfl).trans (by rfl)

end HomeworkBot
